import Mathlib

/-!
Verification of the GAIA authentication response parser/classifier
(`GaiaAuthFetcher`) and of the audio shared-memory reader
(`AudioSyncReader`) of this repository.

The `AudioSyncReader` implementation is present in the sources and is
embedded directly.  The `GaiaAuthFetcher` implementation itself is not
among the source files (only its unit-test suite is), so its parsing and
classification routines are modelled from the specification's description
of the component — newline-delimited `key=value` body parsing, the textual
error-code lookup table, the two-factor marker, and the
network-status-to-connection-error mapping — and each modelled definition
is validated below against the concrete inputs and expected outputs that
the repository's own test suite pins down.
-/

namespace Gaia

/-- Characters of a C++ `std::string`, modelled as a list of characters. -/
abbrev Chars := List Char

/-- Splits a character list at the first occurrence of `delim`, returning
the pieces before and after it, or `none` when `delim` does not occur.
This models splitting a `key=value` line at its first `=`. -/
def splitFirst (delim : Char) : Chars → Option (Chars × Chars)
  | [] => none
  | c :: cs =>
    if c = delim then some ([], cs)
    else (splitFirst delim cs).map (fun q => (c :: q.1, q.2))

/-- Splits a character list on every occurrence of `delim`; `n` delimiters
yield `n + 1` pieces.  This models splitting a response body into its
newline-delimited lines. -/
def splitOnChar (delim : Char) : Chars → List Chars
  | [] => [[]]
  | c :: cs =>
    if c = delim then [] :: splitOnChar delim cs
    else (c :: (splitOnChar delim cs).headD []) :: (splitOnChar delim cs).tail

/-- Modelled from the spec: `base::SplitStringIntoKeyValuePairs` (absent
from the sources) as used by `GaiaAuthFetcher` — every line that contains
an `=` contributes the pair of its key (text before the first `=`) and
value (text after it); lines without `=`, blank lines included, contribute
nothing. -/
def pairsOfLines (lines : List Chars) : List (Chars × Chars) :=
  lines.filterMap (splitFirst '=')

/-- Key/value pairs of a newline-delimited `key=value` body. -/
def pairsOf (data : Chars) : List (Chars × Chars) :=
  pairsOfLines (splitOnChar '\n' data)

/-- The `(sid, lsid, token)` output triple of
`GaiaAuthFetcher::ParseClientLoginResponse`. -/
structure ClientLoginTriple where
  sid : Chars
  lsid : Chars
  token : Chars
deriving DecidableEq, Repr

/-- The `SID` response key. -/
def sidKey : Chars := "SID".data

/-- The `LSID` response key. -/
def lsidKey : Chars := "LSID".data

/-- The `Auth` response key. -/
def authKey : Chars := "Auth".data

/-- One step of the assignment loop of `ParseClientLoginResponse`: a pair
whose key is `SID`, `LSID` or `Auth` overwrites the corresponding output,
any other pair is ignored. -/
def applyLoginPair (acc : ClientLoginTriple) (p : Chars × Chars) : ClientLoginTriple :=
  if p.1 = sidKey then { acc with sid := p.2 }
  else if p.1 = lsidKey then { acc with lsid := p.2 }
  else if p.1 = authKey then { acc with token := p.2 }
  else acc

/-- Parses ClientLogin response lines into the `(sid, lsid, token)` triple,
starting from empty outputs. -/
def parseLoginFromLines (lines : List Chars) : ClientLoginTriple :=
  (pairsOfLines lines).foldl applyLoginPair ⟨[], [], []⟩

/-- Modelled from the spec: `GaiaAuthFetcher::ParseClientLoginResponse`
(absent from the sources) — parsing of a `key=value` newline-delimited
body into the `(sid, lsid, token)` triple, tolerant of missing fields and
key order; outputs of absent keys stay empty. -/
def ParseClientLoginResponse (data : Chars) : ClientLoginTriple :=
  parseLoginFromLines (splitOnChar '\n' data)

/-- The `(error, error_url, captcha_url, captcha_token)` outputs of
`GaiaAuthFetcher::ParseClientLoginFailure`. -/
structure ClientLoginFailureInfo where
  error : Chars
  url : Chars
  captchaUrl : Chars
  captchaToken : Chars
deriving DecidableEq, Repr

/-- The `Error` key of an error body. -/
def errorKey : Chars := "Error".data

/-- The `Url` key of an error body. -/
def urlKey : Chars := "Url".data

/-- The `CaptchaUrl` key of an error body. -/
def captchaUrlKey : Chars := "CaptchaUrl".data

/-- The `CaptchaToken` key of an error body. -/
def captchaTokenKey : Chars := "CaptchaToken".data

/-- One step of the assignment loop of `ParseClientLoginFailure`. -/
def applyFailurePair (acc : ClientLoginFailureInfo) (p : Chars × Chars) :
    ClientLoginFailureInfo :=
  if p.1 = errorKey then { acc with error := p.2 }
  else if p.1 = urlKey then { acc with url := p.2 }
  else if p.1 = captchaUrlKey then { acc with captchaUrl := p.2 }
  else if p.1 = captchaTokenKey then { acc with captchaToken := p.2 }
  else acc

/-- Parses ClientLogin error lines into the failure-info outputs, starting
from empty outputs. -/
def parseFailureFromLines (lines : List Chars) : ClientLoginFailureInfo :=
  (pairsOfLines lines).foldl applyFailurePair ⟨[], [], [], []⟩

/-- Modelled from the spec: `GaiaAuthFetcher::ParseClientLoginFailure`
(absent from the sources) — error-body parsing into
`(error, url, captcha_url, captcha_token)`. -/
def ParseClientLoginFailure (data : Chars) : ClientLoginFailureInfo :=
  parseFailureFromLines (splitOnChar '\n' data)

/-- The value assigned to key `k` by the last line of the body carrying
that key, when any. -/
def lookupLast (k : Chars) (ps : List (Chars × Chars)) : Option Chars :=
  (ps.reverse.find? (fun p => p.1 = k)).map Prod.snd

/-- `lookupLast`, defaulting to the empty string when the key is absent. -/
def lookupLastD (k : Chars) (ps : List (Chars × Chars)) : Chars :=
  (lookupLast k ps).getD []

/-- Substring search: `containsSub pat l` is true when `pat` occurs
contiguously inside `l`.  This models `std::string::find(...) != npos`. -/
def containsSub (pat : Chars) : Chars → Bool
  | [] => pat.isEmpty
  | c :: cs => pat.isPrefixOf (c :: cs) || containsSub pat cs

/-- The marker of a successful second-factor (two-step) challenge inside a
ClientLogin error body, `GaiaAuthFetcher::kSecondFactor`.  Modelled from
the spec: the two-factor challenge marker of the error taxonomy; the
concrete text is pinned by the upstream constant. -/
def kSecondFactor : Chars := "Info=WebLoginRequired".data

/-- Modelled from the spec: `GaiaAuthFetcher::IsSecondFactorSuccess`
(absent from the sources) — a response body signals the two-factor
challenge exactly when it contains the second-factor marker. -/
def IsSecondFactorSuccess (allegedError : Chars) : Bool :=
  containsSub kSecondFactor allegedError

/-- The status of a completed `net::URLRequest`. -/
inductive RequestState where
  | SUCCESS
  | CANCELED
  | FAILED
deriving DecidableEq, Repr

/-- `net::URLRequestStatus`: a completion state together with a network
error number. -/
structure URLRequestStatus where
  state : RequestState
  error : Int
deriving DecidableEq, Repr

/-- `URLRequestStatus::is_success()`. -/
def URLRequestStatus.isSuccess (s : URLRequestStatus) : Bool :=
  s.state = RequestState.SUCCESS

/-- The CAPTCHA challenge payload of a `CAPTCHA_REQUIRED` outcome (token,
image URL and unlock URL); URLs are modelled as their text. -/
structure CaptchaChallenge where
  token : Chars
  imageUrl : Chars
  unlockUrl : Chars
deriving DecidableEq, Repr

/-- `GoogleServiceAuthError`: the closed set of typed authentication
outcomes produced by the response classifier. -/
inductive GoogleServiceAuthError where
  | NONE
  | INVALID_GAIA_CREDENTIALS
  | ACCOUNT_DELETED
  | ACCOUNT_DISABLED
  | SERVICE_UNAVAILABLE
  | TWO_FACTOR
  | CAPTCHA_REQUIRED (captcha : CaptchaChallenge)
  | CONNECTION_FAILED (error : Int)
  | REQUEST_CANCELED
deriving DecidableEq, Repr

/-- `GoogleServiceAuthError::FromConnectionError`. -/
def FromConnectionError (error : Int) : GoogleServiceAuthError :=
  GoogleServiceAuthError.CONNECTION_FAILED error

/-- The `BadAuthentication` error code. -/
def kBadAuthenticationError : Chars := "BadAuthentication".data

/-- The `CaptchaRequired` error code. -/
def kCaptchaError : Chars := "CaptchaRequired".data

/-- The `AccountDeleted` error code. -/
def kAccountDeletedError : Chars := "AccountDeleted".data

/-- The `AccountDisabled` error code. -/
def kAccountDisabledError : Chars := "AccountDisabled".data

/-- The `ServiceUnavailable` error code. -/
def kServiceUnavailableError : Chars := "ServiceUnavailable".data

/-- The accounts-URL base prepended to the relative `CaptchaUrl` of an
error body; its text is pinned by the repository's `CaptchaParse` test. -/
def captchaUrlBase : Chars := "http://www.google.com/accounts/".data

/-- Modelled from the spec: `GaiaAuthFetcher::GenerateAuthError` (absent
from the sources) — the classifier mapping a raw ClientLogin response body
and its transport status to a typed outcome: a non-success network status
maps to a connection error (or cancellation), the second-factor marker to
`TWO_FACTOR`, and otherwise the textual error code of the body is looked
up in the closed taxonomy, defaulting to `SERVICE_UNAVAILABLE`. -/
def GenerateAuthError (data : Chars) (status : URLRequestStatus) :
    GoogleServiceAuthError :=
  match status.state with
  | RequestState.CANCELED => GoogleServiceAuthError.REQUEST_CANCELED
  | RequestState.FAILED => FromConnectionError status.error
  | RequestState.SUCCESS =>
    if IsSecondFactorSuccess data then GoogleServiceAuthError.TWO_FACTOR
    else
      let f := ParseClientLoginFailure data
      if f.error = kCaptchaError then
        GoogleServiceAuthError.CAPTCHA_REQUIRED
          ⟨f.captchaToken, captchaUrlBase ++ f.captchaUrl, f.url⟩
      else if f.error = kAccountDeletedError then
        GoogleServiceAuthError.ACCOUNT_DELETED
      else if f.error = kAccountDisabledError then
        GoogleServiceAuthError.ACCOUNT_DISABLED
      else if f.error = kBadAuthenticationError then
        GoogleServiceAuthError.INVALID_GAIA_CREDENTIALS
      else
        GoogleServiceAuthError.SERVICE_UNAVAILABLE

/-- `GaiaAuthConsumer::ClientLoginResult`: the success payload handed to
`OnClientLoginSuccess`. -/
structure ClientLoginResult where
  sid : Chars
  lsid : Chars
  token : Chars
  data : Chars
deriving DecidableEq, Repr

/-- The structured outcome of a completed ClientLogin fetch: exactly one
of the consumer callbacks `OnClientLoginSuccess` / `OnClientLoginFailure`
is invoked, with the recorded payload. -/
inductive ClientLoginOutcome where
  | success (result : ClientLoginResult)
  | failure (error : GoogleServiceAuthError)
deriving DecidableEq, Repr

/-- The structured outcome of a completed IssueAuthToken fetch. -/
inductive IssueAuthTokenOutcome where
  | success (service : Chars) (token : Chars)
  | failure (service : Chars) (error : GoogleServiceAuthError)
deriving DecidableEq, Repr

/-- `net::HTTP_OK`. -/
def HTTP_OK : Nat := 200

/-- Modelled from the spec: `GaiaAuthFetcher::OnClientLoginFetched` (absent
from the sources) — on a successful transport status with HTTP 200 the
body is parsed and `OnClientLoginSuccess` receives the
`(sid, lsid, token, data)` payload; otherwise `OnClientLoginFailure`
receives the classifier's typed error. -/
def OnClientLoginFetched (data : Chars) (status : URLRequestStatus)
    (responseCode : Nat) : ClientLoginOutcome :=
  if status.isSuccess ∧ responseCode = HTTP_OK then
    let t := ParseClientLoginResponse data
    ClientLoginOutcome.success ⟨t.sid, t.lsid, t.token, data⟩
  else
    ClientLoginOutcome.failure (GenerateAuthError data status)

/-- Modelled from the spec: `GaiaAuthFetcher::OnIssueAuthTokenFetched`
(absent from the sources) — on a successful transport status with HTTP 200
the body is the token handed to `OnIssueAuthTokenSuccess`; otherwise
`OnIssueAuthTokenFailure` receives the classifier's typed error. -/
def OnIssueAuthTokenFetched (service : Chars) (data : Chars)
    (status : URLRequestStatus) (responseCode : Nat) : IssueAuthTokenOutcome :=
  if status.isSuccess ∧ responseCode = HTTP_OK then
    IssueAuthTokenOutcome.success service data
  else
    IssueAuthTokenOutcome.failure service (GenerateAuthError data status)

/-- Removes leading and trailing spaces, as `base::SplitString` trims each
piece of a cookie split on `;`. -/
def trimSpaces (s : Chars) : Chars :=
  ((s.dropWhile (fun c => c = ' ')).reverse.dropWhile (fun c => c = ' ')).reverse

/-- The trimmed `;`-separated attribute parts of a cookie line. -/
def cookieParts (cookie : Chars) : List Chars :=
  (splitOnChar ';' cookie).map trimSpaces

/-- The `Secure` cookie attribute. -/
def kCookiePartSecure : Chars := "Secure".data

/-- The `HttpOnly` cookie attribute. -/
def kCookiePartHttpOnly : Chars := "HttpOnly".data

/-- The `oauth_code=` key of the auth-code cookie part. -/
def kCookiePartCodeKey : Chars := "oauth_code=".data

/-- Modelled from the spec: the per-cookie half of
`GaiaAuthFetcher::ParseClientLoginToOAuth2Response` (absent from the
sources) — a cookie yields an auth code exactly when its parts carry both
the `Secure` and `HttpOnly` attributes and one part is `oauth_code=`
followed by the code; behaviour pinned by the repository's
`ParseClientLoginToOAuth2Response` test and its cookie constants. -/
def ParseClientLoginToOAuth2Cookie (cookie : Chars) : Option Chars :=
  let parts := cookieParts cookie
  if kCookiePartSecure ∈ parts ∧ kCookiePartHttpOnly ∈ parts then
    (parts.find? (fun p => kCookiePartCodeKey.isPrefixOf p)).map
      (fun p => p.drop kCookiePartCodeKey.length)
  else
    none

/-- Modelled from the spec: `GaiaAuthFetcher::ParseClientLoginToOAuth2Response`
(absent from the sources) — scans the response cookies for one carrying an
auth code, returning `true` and the code on the first hit, and `false`
with an empty code output otherwise. -/
def ParseClientLoginToOAuth2Response (cookies : List Chars) : Bool × Chars :=
  match cookies.findSome? ParseClientLoginToOAuth2Cookie with
  | some code => (true, code)
  | none => (false, [])

end Gaia

namespace Audio

/-- The shared-memory buffer of `AudioSyncReader`: raw byte-addressable
memory (`memory()`) together with its created size (`created_size()`). -/
structure SharedMemory where
  byteAt : Nat → Nat
  createdSize : Nat

/-- The two `media::audio_util` helpers `AudioSyncReader::Read` consults;
their implementations are not among the source files, so the embedding is
parametric in them. -/
structure AudioHelpers where
  maxDataSizeInBytes : Nat → Nat
  actualDataSizeInBytes : SharedMemory → Nat

/-- `memcpy(data, GetDataPointer(shared_memory), n)`: the first `n` bytes
of the shared buffer, in order. -/
def memcpyFromShared (shm : SharedMemory) (n : Nat) : List Nat :=
  (List.range n).map shm.byteAt

/-- `memset(mem, 0, n)`: the memory with its first `n` bytes zeroed. -/
def memsetZero (mem : Nat → Nat) (n : Nat) : Nat → Nat :=
  fun i => if i < n then 0 else mem i

/-- Embedding of `AudioSyncReader::Read` (src/unnamed/part_001): clamps the
requested size by the maximum data size for the created size and by the
actual data size, copies that many bytes out of the shared buffer, zeroes
the entire shared buffer, and returns the copied size.  The result is the
returned size, the bytes copied into the caller's buffer, and the
shared-memory state after the call. -/
def audioSyncReaderRead (m : AudioHelpers) (shm : SharedMemory) (size : Nat) :
    Nat × List Nat × SharedMemory :=
  let readSize := min size (m.maxDataSizeInBytes shm.createdSize)
  let readSize2 := min readSize (m.actualDataSizeInBytes shm)
  let dest := memcpyFromShared shm readSize2
  let shm2 : SharedMemory :=
    { shm with byteAt := memsetZero shm.byteAt shm.createdSize }
  (readSize2, dest, shm2)

end Audio

namespace Gaia

/-! Shared lemmas about the splitting and folding machinery. -/

theorem splitOnChar_ne_nil (d : Char) (l : Chars) : splitOnChar d l ≠ [] := by
  cases l with
  | nil => simp [splitOnChar]
  | cons c cs =>
    by_cases h : c = d <;> simp [splitOnChar, h]

theorem splitOnChar_append_delim (d : Char) (l : Chars) :
    splitOnChar d (l ++ [d]) = splitOnChar d l ++ [[]] := by
  induction l with
  | nil => simp [splitOnChar]
  | cons c cs ih =>
    by_cases h : c = d
    · simp [splitOnChar, h, ih]
    · have h1 : splitOnChar d ((c :: cs) ++ [d]) =
          (c :: (splitOnChar d (cs ++ [d])).headD []) :: (splitOnChar d (cs ++ [d])).tail := by
        simp [splitOnChar, h]
      have h2 : splitOnChar d (c :: cs) =
          (c :: (splitOnChar d cs).headD []) :: (splitOnChar d cs).tail := by
        simp [splitOnChar, h]
      rw [h1, h2, ih]
      cases hsc : splitOnChar d cs with
      | nil => exact absurd hsc (splitOnChar_ne_nil d cs)
      | cons x xs => simp

theorem pairsOfLines_append (l₁ l₂ : List Chars) :
    pairsOfLines (l₁ ++ l₂) = pairsOfLines l₁ ++ pairsOfLines l₂ := by
  simp [pairsOfLines, List.filterMap_append]

theorem pairsOfLines_filter_nonempty (lines : List Chars) :
    pairsOfLines (lines.filter (fun l => !l.isEmpty)) = pairsOfLines lines := by
  induction lines with
  | nil => rfl
  | cons l ls ih =>
    cases l with
    | nil => simpa [pairsOfLines, List.filter_cons, splitFirst] using ih
    | cons c cs =>
      simp only [pairsOfLines, List.filter_cons] at *
      simp [List.filterMap_cons, ih]

theorem pairsOf_append_newline (data : Chars) :
    pairsOf (data ++ ['\n']) = pairsOf data := by
  unfold pairsOf
  rw [splitOnChar_append_delim, pairsOfLines_append]
  simp [pairsOfLines, splitFirst]

theorem foldl_field_eq {A : Type} (g : A → Chars × Chars → A) (s : A → Chars)
    (k : Chars) (hg : ∀ acc p, s (g acc p) = if p.1 = k then p.2 else s acc)
    (ps : List (Chars × Chars)) : ∀ acc : A,
    s (ps.foldl g acc) = (lookupLast k ps).getD (s acc) := by
  induction ps with
  | nil => intro acc; simp [lookupLast]
  | cons p rest ih =>
    intro acc
    simp only [List.foldl_cons]
    rw [ih (g acc p)]
    simp only [lookupLast, List.reverse_cons, List.find?_append]
    cases h : rest.reverse.find? (fun q => decide (q.1 = k)) with
    | some q => simp [h]
    | none =>
      by_cases hk : p.1 = k
      · have hf : (fun q : Chars × Chars => decide (q.1 = k)) p = true := by simp [hk]
        simp [h, List.find?_cons_of_pos _ hf, hg, hk]
      · have hf : ¬ (fun q : Chars × Chars => decide (q.1 = k)) p = true := by simp [hk]
        simp [h, List.find?_cons_of_neg _ hf, hg, hk]

theorem applyLoginPair_sid (acc : ClientLoginTriple) (p : Chars × Chars) :
    (applyLoginPair acc p).sid = if p.1 = sidKey then p.2 else acc.sid := by
  unfold applyLoginPair
  by_cases h1 : p.1 = sidKey
  · rw [if_pos h1, if_pos h1]
  · rw [if_neg h1, if_neg h1]
    by_cases h2 : p.1 = lsidKey
    · rw [if_pos h2]
    · rw [if_neg h2]
      by_cases h3 : p.1 = authKey
      · rw [if_pos h3]
      · rw [if_neg h3]

theorem applyLoginPair_lsid (acc : ClientLoginTriple) (p : Chars × Chars) :
    (applyLoginPair acc p).lsid = if p.1 = lsidKey then p.2 else acc.lsid := by
  unfold applyLoginPair
  by_cases h1 : p.1 = sidKey
  · have h2 : ¬ p.1 = lsidKey := fun hc => absurd (h1.symm.trans hc) (by decide)
    rw [if_pos h1, if_neg h2]
  · rw [if_neg h1]
    by_cases h2 : p.1 = lsidKey
    · rw [if_pos h2, if_pos h2]
    · rw [if_neg h2, if_neg h2]
      by_cases h3 : p.1 = authKey
      · rw [if_pos h3]
      · rw [if_neg h3]

theorem applyLoginPair_token (acc : ClientLoginTriple) (p : Chars × Chars) :
    (applyLoginPair acc p).token = if p.1 = authKey then p.2 else acc.token := by
  unfold applyLoginPair
  by_cases h1 : p.1 = sidKey
  · have h3 : ¬ p.1 = authKey := fun hc => absurd (h1.symm.trans hc) (by decide)
    rw [if_pos h1, if_neg h3]
  · rw [if_neg h1]
    by_cases h2 : p.1 = lsidKey
    · have h3 : ¬ p.1 = authKey := fun hc => absurd (h2.symm.trans hc) (by decide)
      rw [if_pos h2, if_neg h3]
    · rw [if_neg h2]
      by_cases h3 : p.1 = authKey
      · rw [if_pos h3, if_pos h3]
      · rw [if_neg h3, if_neg h3]

theorem applyFailurePair_error (acc : ClientLoginFailureInfo) (p : Chars × Chars) :
    (applyFailurePair acc p).error = if p.1 = errorKey then p.2 else acc.error := by
  unfold applyFailurePair
  by_cases h1 : p.1 = errorKey
  · rw [if_pos h1, if_pos h1]
  · rw [if_neg h1, if_neg h1]
    by_cases h2 : p.1 = urlKey
    · rw [if_pos h2]
    · rw [if_neg h2]
      by_cases h3 : p.1 = captchaUrlKey
      · rw [if_pos h3]
      · rw [if_neg h3]
        by_cases h4 : p.1 = captchaTokenKey
        · rw [if_pos h4]
        · rw [if_neg h4]

theorem applyFailurePair_url (acc : ClientLoginFailureInfo) (p : Chars × Chars) :
    (applyFailurePair acc p).url = if p.1 = urlKey then p.2 else acc.url := by
  unfold applyFailurePair
  by_cases h1 : p.1 = errorKey
  · have hx : ¬ p.1 = urlKey := fun hc => absurd (h1.symm.trans hc) (by decide)
    rw [if_pos h1, if_neg hx]
  · rw [if_neg h1]
    by_cases h2 : p.1 = urlKey
    · rw [if_pos h2, if_pos h2]
    · rw [if_neg h2, if_neg h2]
      by_cases h3 : p.1 = captchaUrlKey
      · rw [if_pos h3]
      · rw [if_neg h3]
        by_cases h4 : p.1 = captchaTokenKey
        · rw [if_pos h4]
        · rw [if_neg h4]

theorem applyFailurePair_captchaUrl (acc : ClientLoginFailureInfo) (p : Chars × Chars) :
    (applyFailurePair acc p).captchaUrl =
      if p.1 = captchaUrlKey then p.2 else acc.captchaUrl := by
  unfold applyFailurePair
  by_cases h1 : p.1 = errorKey
  · have hx : ¬ p.1 = captchaUrlKey := fun hc => absurd (h1.symm.trans hc) (by decide)
    rw [if_pos h1, if_neg hx]
  · rw [if_neg h1]
    by_cases h2 : p.1 = urlKey
    · have hx : ¬ p.1 = captchaUrlKey := fun hc => absurd (h2.symm.trans hc) (by decide)
      rw [if_pos h2, if_neg hx]
    · rw [if_neg h2]
      by_cases h3 : p.1 = captchaUrlKey
      · rw [if_pos h3, if_pos h3]
      · rw [if_neg h3, if_neg h3]
        by_cases h4 : p.1 = captchaTokenKey
        · rw [if_pos h4]
        · rw [if_neg h4]

theorem applyFailurePair_captchaToken (acc : ClientLoginFailureInfo) (p : Chars × Chars) :
    (applyFailurePair acc p).captchaToken =
      if p.1 = captchaTokenKey then p.2 else acc.captchaToken := by
  unfold applyFailurePair
  by_cases h1 : p.1 = errorKey
  · have hx : ¬ p.1 = captchaTokenKey := fun hc => absurd (h1.symm.trans hc) (by decide)
    rw [if_pos h1, if_neg hx]
  · rw [if_neg h1]
    by_cases h2 : p.1 = urlKey
    · have hx : ¬ p.1 = captchaTokenKey := fun hc => absurd (h2.symm.trans hc) (by decide)
      rw [if_pos h2, if_neg hx]
    · rw [if_neg h2]
      by_cases h3 : p.1 = captchaUrlKey
      · have hx : ¬ p.1 = captchaTokenKey := fun hc => absurd (h3.symm.trans hc) (by decide)
        rw [if_pos h3, if_neg hx]
      · rw [if_neg h3]
        by_cases h4 : p.1 = captchaTokenKey
        · rw [if_pos h4, if_pos h4]
        · rw [if_neg h4, if_neg h4]

theorem parseLoginFromLines_eq (lines : List Chars) :
    parseLoginFromLines lines =
      ⟨lookupLastD sidKey (pairsOfLines lines),
       lookupLastD lsidKey (pairsOfLines lines),
       lookupLastD authKey (pairsOfLines lines)⟩ := by
  have hs := foldl_field_eq applyLoginPair (fun t => t.sid) sidKey
    applyLoginPair_sid (pairsOfLines lines) ⟨[], [], []⟩
  have hl := foldl_field_eq applyLoginPair (fun t => t.lsid) lsidKey
    applyLoginPair_lsid (pairsOfLines lines) ⟨[], [], []⟩
  have ht := foldl_field_eq applyLoginPair (fun t => t.token) authKey
    applyLoginPair_token (pairsOfLines lines) ⟨[], [], []⟩
  unfold parseLoginFromLines
  cases hres : (pairsOfLines lines).foldl applyLoginPair ⟨[], [], []⟩ with
  | mk s l t =>
    rw [hres] at hs hl ht
    simp only at hs hl ht
    simp [lookupLastD, ClientLoginTriple.mk.injEq, hs, hl, ht]

theorem parseFailureFromLines_eq (lines : List Chars) :
    parseFailureFromLines lines =
      ⟨lookupLastD errorKey (pairsOfLines lines),
       lookupLastD urlKey (pairsOfLines lines),
       lookupLastD captchaUrlKey (pairsOfLines lines),
       lookupLastD captchaTokenKey (pairsOfLines lines)⟩ := by
  have h1 := foldl_field_eq applyFailurePair (fun t => t.error) errorKey
    applyFailurePair_error (pairsOfLines lines) ⟨[], [], [], []⟩
  have h2 := foldl_field_eq applyFailurePair (fun t => t.url) urlKey
    applyFailurePair_url (pairsOfLines lines) ⟨[], [], [], []⟩
  have h3 := foldl_field_eq applyFailurePair (fun t => t.captchaUrl) captchaUrlKey
    applyFailurePair_captchaUrl (pairsOfLines lines) ⟨[], [], [], []⟩
  have h4 := foldl_field_eq applyFailurePair (fun t => t.captchaToken) captchaTokenKey
    applyFailurePair_captchaToken (pairsOfLines lines) ⟨[], [], [], []⟩
  unfold parseFailureFromLines
  cases hres : (pairsOfLines lines).foldl applyFailurePair ⟨[], [], [], []⟩ with
  | mk e u cu ct =>
    rw [hres] at h1 h2 h3 h4
    simp only at h1 h2 h3 h4
    simp [lookupLastD, ClientLoginFailureInfo.mk.injEq, h1, h2, h3, h4]

theorem find?_eq_of_perm {α : Type} (f : α → Bool) {l₁ l₂ : List α}
    (h : l₁.Perm l₂)
    (huniq : ∀ a ∈ l₁, ∀ b ∈ l₁, f a = true → f b = true → a = b) :
    l₁.find? f = l₂.find? f := by
  induction h with
  | nil => rfl
  | cons x hperm ih =>
    rename_i t₁ t₂
    have huniq' : ∀ a ∈ t₁, ∀ b ∈ t₁, f a = true → f b → a = b := by
      intro a ha b hb hfa hfb
      exact huniq a (List.mem_cons_of_mem x ha) b (List.mem_cons_of_mem x hb) hfa hfb
    by_cases hx : f x = true
    · rw [List.find?_cons_of_pos _ hx, List.find?_cons_of_pos _ hx]
    · rw [List.find?_cons_of_neg _ (by simp [hx]), List.find?_cons_of_neg _ (by simp [hx])]
      exact ih huniq'
  | swap x y l =>
    by_cases hx : f x = true <;> by_cases hy : f y = true
    · have hxy : y = x := huniq y (by simp) x (by simp) hy hx
      subst hxy
      rfl
    · rw [List.find?_cons_of_neg _ (by simp [hy]), List.find?_cons_of_pos _ hx,
        List.find?_cons_of_pos _ hx]
    · rw [List.find?_cons_of_pos _ hy, List.find?_cons_of_neg _ (by simp [hx]),
        List.find?_cons_of_pos _ hy]
    · rw [List.find?_cons_of_neg _ (by simp [hy]), List.find?_cons_of_neg _ (by simp [hx]),
        List.find?_cons_of_neg _ (by simp [hx]), List.find?_cons_of_neg _ (by simp [hy])]
  | trans h₁ h₂ ih₁ ih₂ =>
    refine (ih₁ huniq).trans (ih₂ ?_)
    intro a ha b hb hfa hfb
    exact huniq a (h₁.mem_iff.mpr ha) b (h₁.mem_iff.mpr hb) hfa hfb

theorem lookupLast_eq_of_perm (k : Chars) {ps₁ ps₂ : List (Chars × Chars)}
    (h : ps₁.Perm ps₂) (hnd : (ps₁.map Prod.fst).Nodup) :
    lookupLast k ps₁ = lookupLast k ps₂ := by
  unfold lookupLast
  have hperm : ps₁.reverse.Perm ps₂.reverse :=
    ((ps₁.reverse_perm).trans h).trans (ps₂.reverse_perm).symm
  rw [find?_eq_of_perm (fun q => decide (q.1 = k)) hperm]
  intro a ha b hb hfa hfb
  have ha' : a ∈ ps₁ := List.mem_reverse.mp ha
  have hb' : b ∈ ps₁ := List.mem_reverse.mp hb
  have hak : a.1 = k := of_decide_eq_true hfa
  have hbk : b.1 = k := of_decide_eq_true hfb
  exact List.inj_on_of_nodup_map hnd ha' hb' (by rw [hak, hbk])

theorem parseLoginFromLines_perm {l₁ l₂ : List Chars} (h : l₁.Perm l₂)
    (hnd : ((pairsOfLines l₁).map Prod.fst).Nodup) :
    parseLoginFromLines l₁ = parseLoginFromLines l₂ := by
  have hp : (pairsOfLines l₁).Perm (pairsOfLines l₂) := h.filterMap (splitFirst '=')
  rw [parseLoginFromLines_eq, parseLoginFromLines_eq]
  simp [lookupLastD, lookupLast_eq_of_perm sidKey hp hnd,
    lookupLast_eq_of_perm lsidKey hp hnd, lookupLast_eq_of_perm authKey hp hnd]

theorem parseFailureFromLines_perm {l₁ l₂ : List Chars} (h : l₁.Perm l₂)
    (hnd : ((pairsOfLines l₁).map Prod.fst).Nodup) :
    parseFailureFromLines l₁ = parseFailureFromLines l₂ := by
  have hp : (pairsOfLines l₁).Perm (pairsOfLines l₂) := h.filterMap (splitFirst '=')
  rw [parseFailureFromLines_eq, parseFailureFromLines_eq]
  simp [lookupLastD, lookupLast_eq_of_perm errorKey hp hnd,
    lookupLast_eq_of_perm urlKey hp hnd, lookupLast_eq_of_perm captchaUrlKey hp hnd,
    lookupLast_eq_of_perm captchaTokenKey hp hnd]

theorem containsSub_iff (pat l : Chars) : containsSub pat l = true ↔ pat <:+: l := by
  induction l with
  | nil =>
    simp [containsSub, List.isEmpty_iff]
  | cons c cs ih =>
    simp [containsSub, List.infix_cons_iff, List.isPrefixOf_iff_prefix, ih]

theorem findSome?_isSome_iff {α β : Type} (f : α → Option β) (l : List α) :
    (l.findSome? f).isSome = true ↔ ∃ a ∈ l, (f a).isSome = true := by
  induction l with
  | nil => simp [List.findSome?_nil]
  | cons x xs ih => cases h : f x <;> simp [List.findSome?_cons, h, ih]

example : ParseClientLoginResponse "SID=sid\nLSID=lsid\nAuth=auth\n".data =
    ⟨"sid".data, "lsid".data, "auth".data⟩ := by decide

example : ParseClientLoginResponse "LSID=lsid\nSID=sid\nAuth=auth\n".data =
    ⟨"sid".data, "lsid".data, "auth".data⟩ := by decide

example : ParseClientLoginResponse "SID=sid\nLSID=lsid\nAuth=auth".data =
    ⟨"sid".data, "lsid".data, "auth".data⟩ := by decide

example : ParseClientLoginResponse "SID=sid\nAuth=auth\n".data =
    ⟨"sid".data, [], "auth".data⟩ := by decide

example : ParseClientLoginResponse "LSID=lsid\nAuth=auth\n".data =
    ⟨[], "lsid".data, "auth".data⟩ := by decide

example : ParseClientLoginResponse "\nAuth=auth\n".data =
    ⟨[], [], "auth".data⟩ := by decide

example : ParseClientLoginResponse "SID=sid".data = ⟨"sid".data, [], []⟩ := by decide

example : ParseClientLoginFailure "Url=U\nError=E\nCaptchaToken=T\nCaptchaUrl=C\n".data =
    ⟨"E".data, "U".data, "C".data, "T".data⟩ := by decide

example : ParseClientLoginFailure "CaptchaToken=T\nError=E\nUrl=U\nCaptchaUrl=C\n".data =
    ⟨"E".data, "U".data, "C".data, "T".data⟩ := by decide

example : ParseClientLoginFailure "\n\n\nCaptchaToken=T\n\nError=E\n\nUrl=U\nCaptchaUrl=C\n".data =
    ⟨"E".data, "U".data, "C".data, "T".data⟩ := by decide

example : IsSecondFactorSuccess ("Error=BadAuthentication\n".data ++ kSecondFactor ++ "\n".data) =
    true := by decide

example : IsSecondFactorSuccess "Error=BadAuthentication\n".data = false := by decide

example : GenerateAuthError "Error=AccountDeleted\n".data ⟨RequestState.SUCCESS, 0⟩ =
    GoogleServiceAuthError.ACCOUNT_DELETED := by decide

example : GenerateAuthError "Error=AccountDisabled\n".data ⟨RequestState.SUCCESS, 0⟩ =
    GoogleServiceAuthError.ACCOUNT_DISABLED := by decide

example : GenerateAuthError "Error=BadAuthentication\n".data ⟨RequestState.SUCCESS, 0⟩ =
    GoogleServiceAuthError.INVALID_GAIA_CREDENTIALS := by decide

example : GenerateAuthError "Error=Gobbledygook\n".data ⟨RequestState.SUCCESS, 0⟩ =
    GoogleServiceAuthError.SERVICE_UNAVAILABLE := by decide

example :
    GenerateAuthError
      "Url=http://www.google.com/login/captcha\nError=CaptchaRequired\nCaptchaToken=CCTOKEN\nCaptchaUrl=Captcha?ctoken=CCTOKEN\n".data
      ⟨RequestState.SUCCESS, 0⟩ =
    GoogleServiceAuthError.CAPTCHA_REQUIRED
      ⟨"CCTOKEN".data,
       "http://www.google.com/accounts/Captcha?ctoken=CCTOKEN".data,
       "http://www.google.com/login/captcha".data⟩ := by decide

example : GenerateAuthError [] ⟨RequestState.FAILED, -101⟩ =
    FromConnectionError (-101) := by decide

example :
    ParseClientLoginToOAuth2Response
      ["oauth_code=test-code; Path=/test; Secure; HttpOnly".data] =
    (true, "test-code".data) := by decide

example : ParseClientLoginToOAuth2Response [] = (false, []) := by decide

example :
    ParseClientLoginToOAuth2Response
      ["oauth_code=test-code; Path=/test; HttpOnly".data,
       "oauth_code=test-code; Path=/test; Secure".data,
       "Path=/test; Secure; HttpOnly".data] =
    (false, []) := by decide

example :
    ParseClientLoginToOAuth2Response
      ["oauth_code=test-code; Path=/test; HttpOnly".data,
       "oauth_code=test-code; Path=/test; Secure".data,
       "Path=/test; Secure; HttpOnly".data,
       "oauth_code=test-code; Path=/test; Secure; HttpOnly".data] =
    (true, "test-code".data) := by decide

end Gaia

open Gaia Audio

/-- C2: `ParseClientLoginResponse` extracts the values of the `SID`, `LSID`
and `Auth` keys of a newline-delimited `key=value` body into the
`(sid, lsid, token)` triple — each output is the value of the last line
carrying its key — regardless of the order in which the keys appear
(permuting the lines of a body whose keys are not repeated leaves the
result unchanged), tolerates a missing trailing newline (appending a final
newline does not change the result) and blank lines (removing empty lines
does not change the result), and leaves an output empty for every key
absent from the body. -/
theorem gaia_parse_client_login_response_correct :
    (∀ data : Chars,
        ParseClientLoginResponse data =
          ⟨lookupLastD sidKey (pairsOf data), lookupLastD lsidKey (pairsOf data),
           lookupLastD authKey (pairsOf data)⟩) ∧
    (∀ data : Chars,
        ParseClientLoginResponse (data ++ ['\n']) = ParseClientLoginResponse data) ∧
    (∀ lines : List Chars,
        parseLoginFromLines (lines.filter (fun l => !l.isEmpty)) =
          parseLoginFromLines lines) ∧
    (∀ data : Chars,
        ((∀ p ∈ pairsOf data, p.1 ≠ sidKey) → (ParseClientLoginResponse data).sid = []) ∧
        ((∀ p ∈ pairsOf data, p.1 ≠ lsidKey) → (ParseClientLoginResponse data).lsid = []) ∧
        ((∀ p ∈ pairsOf data, p.1 ≠ authKey) → (ParseClientLoginResponse data).token = [])) ∧
    (∀ l₁ l₂ : List Chars, l₁.Perm l₂ → ((pairsOfLines l₁).map Prod.fst).Nodup →
        parseLoginFromLines l₁ = parseLoginFromLines l₂) := by
  have habsent : ∀ (k : Chars) (data : Chars), (∀ p ∈ pairsOf data, p.1 ≠ k) →
      lookupLastD k (pairsOf data) = [] := by
    intro k data h
    have : (pairsOf data).reverse.find? (fun q => decide (q.1 = k)) = none := by
      rw [List.find?_eq_none]
      intro p hp
      simp [h p (List.mem_reverse.mp hp)]
    simp [lookupLastD, lookupLast, this]
  refine ⟨?_, ?_, ?_, ?_, ?_⟩
  · intro data
    exact parseLoginFromLines_eq _
  · intro data
    unfold ParseClientLoginResponse
    rw [parseLoginFromLines_eq, parseLoginFromLines_eq]
    have h := pairsOf_append_newline data
    unfold pairsOf at h
    rw [h]
  · intro lines
    rw [parseLoginFromLines_eq, parseLoginFromLines_eq, pairsOfLines_filter_nonempty]
  · intro data
    refine ⟨fun h => ?_, fun h => ?_, fun h => ?_⟩ <;>
      rw [show ParseClientLoginResponse data = parseLoginFromLines (splitOnChar '\n' data)
            from rfl,
          parseLoginFromLines_eq] <;>
      exact habsent _ data h
  · intro l₁ l₂ h hnd
    exact parseLoginFromLines_perm h hnd

/-- Witness for C2 at concrete inputs: the key-order conjunct applied to a
permuted pair of line lists from the repository's `ParseRequest` test, and
the absent-key conjunct applied to a body with no `SID` line. -/
theorem gaia_parse_client_login_response_correct_witness :
    (["LSID=lsid".data, "SID=sid".data, "Auth=auth".data] : List Chars).Perm
      ["SID=sid".data, "LSID=lsid".data, "Auth=auth".data] ∧
    ((pairsOfLines ["LSID=lsid".data, "SID=sid".data, "Auth=auth".data]).map
        Prod.fst).Nodup ∧
    parseLoginFromLines ["LSID=lsid".data, "SID=sid".data, "Auth=auth".data] =
      parseLoginFromLines ["SID=sid".data, "LSID=lsid".data, "Auth=auth".data] ∧
    (∀ p ∈ pairsOf "Auth=auth\n".data, p.1 ≠ sidKey) ∧
    (ParseClientLoginResponse "Auth=auth\n".data).sid = [] := by
  have hperm :
      (["LSID=lsid".data, "SID=sid".data, "Auth=auth".data] : List Chars).Perm
        ["SID=sid".data, "LSID=lsid".data, "Auth=auth".data] :=
    List.Perm.swap "SID=sid".data "LSID=lsid".data ["Auth=auth".data]
  refine ⟨hperm, by decide,
    gaia_parse_client_login_response_correct.2.2.2.2 _ _ hperm (by decide),
    by decide,
    (gaia_parse_client_login_response_correct.2.2.2.1 "Auth=auth\n".data).1 (by decide)⟩

/-- C3: `ParseClientLoginFailure` extracts the values of the `Error`,
`Url`, `CaptchaUrl` and `CaptchaToken` keys of a newline-delimited
`key=value` error body into the `(error, error_url, captcha_url,
captcha_token)` outputs — each output is the value of the last line
carrying its key — regardless of line order (permuting the lines of a body
whose keys are not repeated leaves the result unchanged) and with
interspersed empty lines ignored. -/
theorem gaia_parse_client_login_failure_correct :
    (∀ data : Chars,
        ParseClientLoginFailure data =
          ⟨lookupLastD errorKey (pairsOf data), lookupLastD urlKey (pairsOf data),
           lookupLastD captchaUrlKey (pairsOf data),
           lookupLastD captchaTokenKey (pairsOf data)⟩) ∧
    (∀ lines : List Chars,
        parseFailureFromLines (lines.filter (fun l => !l.isEmpty)) =
          parseFailureFromLines lines) ∧
    (∀ l₁ l₂ : List Chars, l₁.Perm l₂ → ((pairsOfLines l₁).map Prod.fst).Nodup →
        parseFailureFromLines l₁ = parseFailureFromLines l₂) := by
  refine ⟨?_, ?_, ?_⟩
  · intro data
    exact parseFailureFromLines_eq _
  · intro lines
    rw [parseFailureFromLines_eq, parseFailureFromLines_eq, pairsOfLines_filter_nonempty]
  · intro l₁ l₂ h hnd
    exact parseFailureFromLines_perm h hnd

/-- Witness for C3 at concrete inputs: the line-order conjunct applied to a
permuted pair of line lists from the repository's `ParseErrorRequest`
test. -/
theorem gaia_parse_client_login_failure_correct_witness :
    (["CaptchaToken=T".data, "Error=E".data, "Url=U".data, "CaptchaUrl=C".data] :
        List Chars).Perm
      ["Error=E".data, "CaptchaToken=T".data, "Url=U".data, "CaptchaUrl=C".data] ∧
    ((pairsOfLines ["CaptchaToken=T".data, "Error=E".data, "Url=U".data,
        "CaptchaUrl=C".data]).map Prod.fst).Nodup ∧
    parseFailureFromLines
        ["CaptchaToken=T".data, "Error=E".data, "Url=U".data, "CaptchaUrl=C".data] =
      parseFailureFromLines
        ["Error=E".data, "CaptchaToken=T".data, "Url=U".data, "CaptchaUrl=C".data] := by
  have hperm :
      (["CaptchaToken=T".data, "Error=E".data, "Url=U".data, "CaptchaUrl=C".data] :
          List Chars).Perm
        ["Error=E".data, "CaptchaToken=T".data, "Url=U".data, "CaptchaUrl=C".data] :=
    List.Perm.swap "Error=E".data "CaptchaToken=T".data ["Url=U".data, "CaptchaUrl=C".data]
  exact ⟨hperm, by decide,
    gaia_parse_client_login_failure_correct.2.2 _ _ hperm (by decide)⟩

/-- C4: for every completed ClientLogin fetch — every body, transport
status and HTTP response code — the outcome is exactly one of a success
payload (`OnClientLoginSuccess`) and a typed error
(`OnClientLoginFailure`), never both and never neither. -/
theorem gaia_client_login_outcome_exclusive :
    ∀ (data : Chars) (status : URLRequestStatus) (code : Nat),
      ((∃ r, OnClientLoginFetched data status code = ClientLoginOutcome.success r) ∧
        ¬ (∃ e, OnClientLoginFetched data status code = ClientLoginOutcome.failure e)) ∨
      ((∃ e, OnClientLoginFetched data status code = ClientLoginOutcome.failure e) ∧
        ¬ (∃ r, OnClientLoginFetched data status code = ClientLoginOutcome.success r)) := by
  intro data status code
  cases h : OnClientLoginFetched data status code with
  | success r =>
    exact Or.inl ⟨⟨r, rfl⟩, fun hb => by
      obtain ⟨e, he⟩ := hb
      exact ClientLoginOutcome.noConfusion he⟩
  | failure e =>
    exact Or.inr ⟨⟨e, rfl⟩, fun ha => by
      obtain ⟨r, hr⟩ := ha
      exact ClientLoginOutcome.noConfusion hr⟩

/-- C5: the classifier is deterministic — two invocations of
`GenerateAuthError` on equal body text and equal transport status produce
equal `GoogleServiceAuthError` values, and likewise the full ClientLogin
outcome on equal body, transport status and HTTP status; no other state
enters the result. -/
theorem gaia_generate_auth_error_deterministic :
    ∀ (d₁ d₂ : Chars) (s₁ s₂ : URLRequestStatus) (c₁ c₂ : Nat),
      d₁ = d₂ → s₁ = s₂ →
      GenerateAuthError d₁ s₁ = GenerateAuthError d₂ s₂ ∧
      (c₁ = c₂ → OnClientLoginFetched d₁ s₁ c₁ = OnClientLoginFetched d₂ s₂ c₂) := by
  intro d₁ d₂ s₁ s₂ c₁ c₂ hd hs
  subst hd
  subst hs
  exact ⟨rfl, fun hc => by rw [hc]⟩

/-- Witness for C5 at a concrete invocation pair. -/
theorem gaia_generate_auth_error_deterministic_witness :
    GenerateAuthError "Error=BadAuthentication\n".data ⟨RequestState.SUCCESS, 0⟩ =
      GenerateAuthError "Error=BadAuthentication\n".data ⟨RequestState.SUCCESS, 0⟩ ∧
    (200 = 200 →
      OnClientLoginFetched "Error=BadAuthentication\n".data
          ⟨RequestState.SUCCESS, 0⟩ 200 =
        OnClientLoginFetched "Error=BadAuthentication\n".data
          ⟨RequestState.SUCCESS, 0⟩ 200) :=
  gaia_generate_auth_error_deterministic _ _ _ _ 200 200 rfl rfl

/-- C6: `IsSecondFactorSuccess` returns true for a response body if and
only if the body contains the second-factor marker `kSecondFactor` as a
substring; and whenever a body contains both `Error=BadAuthentication` and
the second-factor marker, the classifier on a successful transport status
produces `TWO_FACTOR` rather than `INVALID_GAIA_CREDENTIALS`. -/
theorem gaia_second_factor_detection :
    (∀ b : Chars, IsSecondFactorSuccess b = true ↔ kSecondFactor <:+: b) ∧
    (∀ (b : Chars) (s : URLRequestStatus), s.state = RequestState.SUCCESS →
        "Error=BadAuthentication".data <:+: b → kSecondFactor <:+: b →
        GenerateAuthError b s = GoogleServiceAuthError.TWO_FACTOR) := by
  constructor
  · intro b
    exact containsSub_iff kSecondFactor b
  · intro b s hs hbad hsf
    have hcond : IsSecondFactorSuccess b = true := (containsSub_iff _ _).mpr hsf
    cases s with
    | mk st er =>
      change st = RequestState.SUCCESS at hs
      subst hs
      simp [GenerateAuthError, hcond]

/-- Witness for C6 at the repository's `TwoFactorLogin` body. -/
theorem gaia_second_factor_detection_witness :
    URLRequestStatus.state ⟨RequestState.SUCCESS, 0⟩ = RequestState.SUCCESS ∧
    "Error=BadAuthentication".data <:+:
      "Error=BadAuthentication\nInfo=WebLoginRequired\n".data ∧
    kSecondFactor <:+: "Error=BadAuthentication\nInfo=WebLoginRequired\n".data ∧
    GenerateAuthError "Error=BadAuthentication\nInfo=WebLoginRequired\n".data
      ⟨RequestState.SUCCESS, 0⟩ = GoogleServiceAuthError.TWO_FACTOR := by
  have h1 : "Error=BadAuthentication".data <:+:
      "Error=BadAuthentication\nInfo=WebLoginRequired\n".data :=
    ⟨[], "\nInfo=WebLoginRequired\n".data, by decide⟩
  have h2 : kSecondFactor <:+: "Error=BadAuthentication\nInfo=WebLoginRequired\n".data :=
    ⟨"Error=BadAuthentication\n".data, "\n".data, by decide⟩
  exact ⟨rfl, h1, h2, gaia_second_factor_detection.2 _ _ rfl h1 h2⟩

/-- C7: a fetch whose transport status is `FAILED` with network error
number `n` is classified as the connection error
`GoogleServiceAuthError::FromConnectionError(n)`, whatever the response
body, and this outcome is reported through the failure callback of both
the ClientLogin and the IssueAuthToken flows. -/
theorem gaia_net_failure_connection_error :
    ∀ (b svc : Chars) (s : URLRequestStatus) (c : Nat),
      s.state = RequestState.FAILED →
      GenerateAuthError b s = FromConnectionError s.error ∧
      OnClientLoginFetched b s c =
        ClientLoginOutcome.failure (FromConnectionError s.error) ∧
      OnIssueAuthTokenFetched svc b s c =
        IssueAuthTokenOutcome.failure svc (FromConnectionError s.error) := by
  intro b svc s c hs
  cases s with
  | mk st er =>
    change st = RequestState.FAILED at hs
    subst hs
    refine ⟨rfl, ?_, ?_⟩
    · simp [OnClientLoginFetched, URLRequestStatus.isSuccess, GenerateAuthError]
    · simp [OnIssueAuthTokenFetched, URLRequestStatus.isSuccess, GenerateAuthError]

/-- Witness for C7 at the repository's `LoginNetFailure` and
`TokenNetFailure` inputs: `net::ERR_CONNECTION_RESET` is `-101`. -/
theorem gaia_net_failure_connection_error_witness :
    URLRequestStatus.state ⟨RequestState.FAILED, -101⟩ = RequestState.FAILED ∧
    GenerateAuthError [] ⟨RequestState.FAILED, -101⟩ = FromConnectionError (-101) ∧
    OnClientLoginFetched [] ⟨RequestState.FAILED, -101⟩ 0 =
      ClientLoginOutcome.failure (FromConnectionError (-101)) ∧
    OnIssueAuthTokenFetched "service".data [] ⟨RequestState.FAILED, -101⟩ 0 =
      IssueAuthTokenOutcome.failure "service".data (FromConnectionError (-101)) := by
  have h := gaia_net_failure_connection_error [] "service".data
    ⟨RequestState.FAILED, -101⟩ 0 rfl
  exact ⟨rfl, h.1, h.2.1, h.2.2⟩

/-- C1 counterexample: a body containing `Error=BadAuthentication` does
not always yield `INVALID_GAIA_CREDENTIALS` — the repository's
`TwoFactorLogin` body contains `Error=BadAuthentication` together with the
second-factor marker and is classified as `TWO_FACTOR`. -/
theorem gaia_generate_auth_error_second_factor_cex :
    "Error=BadAuthentication".data <:+:
      "Error=BadAuthentication\nInfo=WebLoginRequired\n".data ∧
    GenerateAuthError "Error=BadAuthentication\nInfo=WebLoginRequired\n".data
      ⟨RequestState.SUCCESS, 0⟩ = GoogleServiceAuthError.TWO_FACTOR ∧
    GoogleServiceAuthError.TWO_FACTOR ≠
      GoogleServiceAuthError.INVALID_GAIA_CREDENTIALS := by
  refine ⟨⟨[], "\nInfo=WebLoginRequired\n".data, by decide⟩, by decide, by decide⟩

/-- C1 (amended): on a successful transport status, provided the body does
not contain the second-factor marker, `GenerateAuthError` maps the parsed
textual error code of the body to the closed set of outcomes —
`BadAuthentication` to `INVALID_GAIA_CREDENTIALS`, `CaptchaRequired` to
`CAPTCHA_REQUIRED` carrying the captcha token, image URL (the accounts
base followed by the parsed relative URL) and unlock URL parsed from the
body, `AccountDeleted` to `ACCOUNT_DELETED`, `AccountDisabled` to
`ACCOUNT_DISABLED`, `ServiceUnavailable` to `SERVICE_UNAVAILABLE`, and any
other error code to `SERVICE_UNAVAILABLE`. -/
theorem gaia_generate_auth_error_closed_taxonomy :
    ∀ (b : Chars) (s : URLRequestStatus),
      s.state = RequestState.SUCCESS →
      IsSecondFactorSuccess b = false →
      ((ParseClientLoginFailure b).error = kBadAuthenticationError →
        GenerateAuthError b s = GoogleServiceAuthError.INVALID_GAIA_CREDENTIALS) ∧
      ((ParseClientLoginFailure b).error = kCaptchaError →
        GenerateAuthError b s = GoogleServiceAuthError.CAPTCHA_REQUIRED
          ⟨(ParseClientLoginFailure b).captchaToken,
           captchaUrlBase ++ (ParseClientLoginFailure b).captchaUrl,
           (ParseClientLoginFailure b).url⟩) ∧
      ((ParseClientLoginFailure b).error = kAccountDeletedError →
        GenerateAuthError b s = GoogleServiceAuthError.ACCOUNT_DELETED) ∧
      ((ParseClientLoginFailure b).error = kAccountDisabledError →
        GenerateAuthError b s = GoogleServiceAuthError.ACCOUNT_DISABLED) ∧
      ((ParseClientLoginFailure b).error = kServiceUnavailableError →
        GenerateAuthError b s = GoogleServiceAuthError.SERVICE_UNAVAILABLE) ∧
      ((ParseClientLoginFailure b).error ∉
          [kBadAuthenticationError, kCaptchaError, kAccountDeletedError,
           kAccountDisabledError, kServiceUnavailableError] →
        GenerateAuthError b s = GoogleServiceAuthError.SERVICE_UNAVAILABLE) := by
  intro b s hs hsf
  cases s with
  | mk st er =>
    change st = RequestState.SUCCESS at hs
    subst hs
    have hmain : GenerateAuthError b ⟨RequestState.SUCCESS, er⟩ =
        (if (ParseClientLoginFailure b).error = kCaptchaError then
          GoogleServiceAuthError.CAPTCHA_REQUIRED
            ⟨(ParseClientLoginFailure b).captchaToken,
             captchaUrlBase ++ (ParseClientLoginFailure b).captchaUrl,
             (ParseClientLoginFailure b).url⟩
        else if (ParseClientLoginFailure b).error = kAccountDeletedError then
          GoogleServiceAuthError.ACCOUNT_DELETED
        else if (ParseClientLoginFailure b).error = kAccountDisabledError then
          GoogleServiceAuthError.ACCOUNT_DISABLED
        else if (ParseClientLoginFailure b).error = kBadAuthenticationError then
          GoogleServiceAuthError.INVALID_GAIA_CREDENTIALS
        else
          GoogleServiceAuthError.SERVICE_UNAVAILABLE) := by
      simp [GenerateAuthError, hsf]
    refine ⟨fun h => ?_, fun h => ?_, fun h => ?_, fun h => ?_, fun h => ?_, fun h => ?_⟩
    · rw [hmain, if_neg (fun hc => absurd (h.symm.trans hc) (by decide)),
        if_neg (fun hc => absurd (h.symm.trans hc) (by decide)),
        if_neg (fun hc => absurd (h.symm.trans hc) (by decide)), if_pos h]
    · rw [hmain, if_pos h]
    · rw [hmain, if_neg (fun hc => absurd (h.symm.trans hc) (by decide)), if_pos h]
    · rw [hmain, if_neg (fun hc => absurd (h.symm.trans hc) (by decide)),
        if_neg (fun hc => absurd (h.symm.trans hc) (by decide)), if_pos h]
    · rw [hmain, if_neg (fun hc => absurd (h.symm.trans hc) (by decide)),
        if_neg (fun hc => absurd (h.symm.trans hc) (by decide)),
        if_neg (fun hc => absurd (h.symm.trans hc) (by decide)),
        if_neg (fun hc => absurd (h.symm.trans hc) (by decide))]
    · simp only [List.mem_cons, List.mem_singleton, not_or] at h
      obtain ⟨h1, h2, h3, h4, h5⟩ := h
      rw [hmain, if_neg h2, if_neg h3, if_neg h4, if_neg h1]

/-- Witness for C1 (amended) at the repository's `AccountDeletedError`
body. -/
theorem gaia_generate_auth_error_closed_taxonomy_witness :
    URLRequestStatus.state ⟨RequestState.SUCCESS, 0⟩ = RequestState.SUCCESS ∧
    IsSecondFactorSuccess "Error=AccountDeleted\n".data = false ∧
    (ParseClientLoginFailure "Error=AccountDeleted\n".data).error =
      kAccountDeletedError ∧
    GenerateAuthError "Error=AccountDeleted\n".data ⟨RequestState.SUCCESS, 0⟩ =
      GoogleServiceAuthError.ACCOUNT_DELETED :=
  ⟨rfl, by decide, by decide,
   (gaia_generate_auth_error_closed_taxonomy "Error=AccountDeleted\n".data
      ⟨RequestState.SUCCESS, 0⟩ rfl (by decide)).2.2.1 (by decide)⟩

/-- C8: for every call of `AudioSyncReader::Read`, the returned value
equals the number of bytes copied into the caller's buffer and equals the
minimum of the requested size, the maximum data size for the shared
memory's created size, and the actual data size recorded in the shared
memory; in particular it never exceeds the requested size. -/
theorem audio_sync_reader_read_size :
    ∀ (m : AudioHelpers) (shm : SharedMemory) (size : Nat),
      (audioSyncReaderRead m shm size).1 =
        min (min size (m.maxDataSizeInBytes shm.createdSize))
          (m.actualDataSizeInBytes shm) ∧
      (audioSyncReaderRead m shm size).2.1.length =
        (audioSyncReaderRead m shm size).1 ∧
      (audioSyncReaderRead m shm size).1 ≤ size := by
  intro m shm size
  refine ⟨rfl, ?_, ?_⟩
  · simp [audioSyncReaderRead, memcpyFromShared]
  · exact (Nat.min_le_left _ _).trans (Nat.min_le_left _ _)

/-- C9: after every call of `AudioSyncReader::Read`, every byte of the
shared-memory buffer within the created size is zero, regardless of how
many bytes were copied out. -/
theorem audio_sync_reader_read_zeroes :
    ∀ (m : AudioHelpers) (shm : SharedMemory) (size i : Nat),
      i < shm.createdSize →
      (audioSyncReaderRead m shm size).2.2.byteAt i = 0 := by
  intro m shm size i hi
  simp [audioSyncReaderRead, memsetZero, hi]

/-- Witness for C9: a four-byte buffer of sevens read with a requested
size of two still has its last byte zeroed. -/
theorem audio_sync_reader_read_zeroes_witness :
    3 < (SharedMemory.mk (fun _ => 7) 4).createdSize ∧
    (audioSyncReaderRead ⟨fun n => n, fun _ => 3⟩
        (SharedMemory.mk (fun _ => 7) 4) 2).2.2.byteAt 3 = 0 :=
  ⟨by decide,
   audio_sync_reader_read_zeroes ⟨fun n => n, fun _ => 3⟩
     (SharedMemory.mk (fun _ => 7) 4) 2 3 (by decide)⟩

/-- Auxiliary characterization: a single cookie yields an auth code
exactly when its trimmed parts carry both `Secure` and `HttpOnly` and one
part starts with `oauth_code=`. -/
theorem parse_oauth2_cookie_isSome_iff (c : Chars) :
    (ParseClientLoginToOAuth2Cookie c).isSome = true ↔
      (kCookiePartSecure ∈ cookieParts c ∧ kCookiePartHttpOnly ∈ cookieParts c ∧
        ∃ p ∈ cookieParts c, kCookiePartCodeKey <+: p) := by
  unfold ParseClientLoginToOAuth2Cookie
  by_cases hmem : kCookiePartSecure ∈ cookieParts c ∧ kCookiePartHttpOnly ∈ cookieParts c
  · rw [if_pos hmem]
    simp only [Option.isSome_map']
    rw [List.find?_isSome]
    constructor
    · rintro ⟨p, hp, hpref⟩
      exact ⟨hmem.1, hmem.2, p, hp, List.isPrefixOf_iff_prefix.mp hpref⟩
    · rintro ⟨-, -, p, hp, hpref⟩
      exact ⟨p, hp, List.isPrefixOf_iff_prefix.mpr hpref⟩
  · rw [if_neg hmem]
    constructor
    · intro h
      exact Bool.noConfusion h
    · rintro ⟨h1, h2, -⟩
      exact absurd ⟨h1, h2⟩ hmem

/-- C10: the cookie scan returns true — and sets the auth-code output —
if and only if some cookie in the response cookie list carries an
`oauth_code` value and has both the `Secure` and `HttpOnly` attributes;
when no such cookie exists (a cookie with `oauth_code` but missing
`Secure` or missing `HttpOnly` does not count) it returns false and the
auth-code output is the empty string. -/
theorem gaia_parse_oauth2_cookie_response :
    ∀ cookies : List Chars,
      ((ParseClientLoginToOAuth2Response cookies).1 = true ↔
        ∃ c ∈ cookies,
          kCookiePartSecure ∈ cookieParts c ∧ kCookiePartHttpOnly ∈ cookieParts c ∧
          ∃ p ∈ cookieParts c, kCookiePartCodeKey <+: p) ∧
      ((ParseClientLoginToOAuth2Response cookies).1 = false →
        (ParseClientLoginToOAuth2Response cookies).2 = []) := by
  intro cookies
  have hrw : ParseClientLoginToOAuth2Response cookies =
      match cookies.findSome? ParseClientLoginToOAuth2Cookie with
      | some code => (true, code)
      | none => (false, []) := rfl
  cases hfind : cookies.findSome? ParseClientLoginToOAuth2Cookie with
  | some code =>
    rw [hrw, hfind]
    constructor
    · constructor
      · intro _
        have hsome : (cookies.findSome? ParseClientLoginToOAuth2Cookie).isSome = true := by
          rw [hfind]
          rfl
        obtain ⟨c, hc, hvc⟩ := (findSome?_isSome_iff _ _).mp hsome
        exact ⟨c, hc, (parse_oauth2_cookie_isSome_iff c).mp hvc⟩
      · intro _
        rfl
    · intro h
      exact Bool.noConfusion h
  | none =>
    rw [hrw, hfind]
    constructor
    · constructor
      · intro h
        exact Bool.noConfusion h
      · rintro ⟨c, hc, hval⟩
        have hsome : (cookies.findSome? ParseClientLoginToOAuth2Cookie).isSome = true :=
          (findSome?_isSome_iff _ _).mpr
            ⟨c, hc, (parse_oauth2_cookie_isSome_iff c).mpr hval⟩
        rw [hfind] at hsome
        exact Bool.noConfusion hsome
    · intro _
      rfl

/-- Witness for C10 at the repository's cookie constants: a list holding
only the `Secure`-less, `HttpOnly`-less and code-less cookies yields false
and an empty auth code. -/
theorem gaia_parse_oauth2_cookie_response_witness :
    (ParseClientLoginToOAuth2Response
        ["oauth_code=test-code; Path=/test; HttpOnly".data,
         "oauth_code=test-code; Path=/test; Secure".data,
         "Path=/test; Secure; HttpOnly".data]).1 = false ∧
    (ParseClientLoginToOAuth2Response
        ["oauth_code=test-code; Path=/test; HttpOnly".data,
         "oauth_code=test-code; Path=/test; Secure".data,
         "Path=/test; Secure; HttpOnly".data]).2 = [] :=
  ⟨by decide,
   (gaia_parse_oauth2_cookie_response
      ["oauth_code=test-code; Path=/test; HttpOnly".data,
       "oauth_code=test-code; Path=/test; Secure".data,
       "Path=/test; Secure; HttpOnly".data]).2 (by decide)⟩
